import Mathlib

/- Batteries marks the `Rat` arithmetic operations `@[irreducible]`, which
blocks `decide`/`rfl` evaluation of the executable embedding on concrete
inputs. Restoring the default reducibility only affects elaboration of this
file; the kernel ignores reducibility attributes, so soundness is untouched. -/
set_option allowUnsafeReducibility true
attribute [semireducible] Rat.add Rat.mul Rat.sub Rat.inv Rat.ofScientific

/-!
Verification of the Student Performance Dashboard predictive-analytics engine
(`src/utils/mlModels.ts`): the linear-regression predictor (`LinearRegressionModel`)
and the k-means clusterer (`StudentClusterer`).

Embedding conventions:
* JS `number` is modelled by `ℚ` (exact arithmetic; every concrete execution in
  this file stays within values where IEEE doubles are exact or where only
  comparisons matter). In `ℚ`, division by zero yields `0`, whereas JS yields
  `Infinity`/`NaN`; every place this matters is marked in a comment.
* `Math.sqrt` is modelled by `ratSqrt`, which is exact on perfect-square
  rationals; every concrete execution in this file takes square roots of
  perfect squares (or zero) only, where the model agrees with JS.
* Euclidean distances are only ever compared (never stored), and `Math.sqrt`
  is strictly monotone on nonnegative reals, so distance comparisons are
  modelled by squared-distance comparisons; argmin and tie-breaking agree
  exactly with the source.
* A thrown JS exception is modelled by `Except JsError`: `JsError.thrown msg`
  for an explicit `throw new Error(msg)`, `JsError.typeError` for a runtime
  TypeError from reading a property of `undefined` (e.g. `X[0].length` on an
  empty array).
* JS array reads `a[i]` on in-range indices are modelled with `List.getD`;
  out-of-range reads (which never occur on the rectangular, well-formed data
  the engine builds internally) would be `undefined` in JS and default values
  here.
* `Math.random()`-based centroid initialisation is modelled by an explicit
  list of picked indices (`picks`), one per initial centroid, exactly as
  `data[Math.floor(Math.random() * n)].slice()` picks a data row.
-/

/-- A JS exception: either an explicit `throw new Error(msg)` or a runtime
TypeError caused by reading a property of `undefined`. -/
inductive JsError where
  | thrown (msg : String)
  | typeError
deriving Repr, DecidableEq

/-- Models the JS `Array.prototype.map` callback form `(value, index) => ...`,
with an explicit running index. -/
def jsMapIdxFrom (f : ℕ → α → β) : ℕ → List α → List β
  | _, [] => []
  | i, a :: as => f i a :: jsMapIdxFrom f (i + 1) as

/-- JS `array.map((value, index) => f index value)`. -/
def jsMapIdx (f : ℕ → α → β) (l : List α) : List β :=
  jsMapIdxFrom f 0 l

/-- Integer square root (largest `k` with `k * k ≤ n`), written with
structural recursion only so that concrete executions reduce inside the
kernel. -/
def natSqrt (n : ℕ) : ℕ :=
  ((List.range (n + 1)).filter fun k => k * k ≤ n).length - 1

/-- Models `Math.sqrt` on the rationals; exact whenever the (nonnegative)
argument has a perfect-square numerator and denominator in lowest terms,
which is the case for every square root taken in this development. -/
def ratSqrt (q : ℚ) : ℚ :=
  (natSqrt q.num.toNat : ℚ) / (natSqrt q.den : ℚ)

/-- The `Student` record from `generateStudentData.ts` (numeric fields only;
`student_id`, `name` and `class` never reach the engine's arithmetic). -/
structure Student where
  comprehension : ℚ
  attention : ℚ
  focus : ℚ
  retention : ℚ
  assessment_score : ℚ
  engagement_time : ℚ
deriving Repr, DecidableEq

/-- TS `Partial<Student>`: every numeric field optional, as consumed by
`predict` and `predictCluster`. -/
structure PartialStudent where
  comprehension : Option ℚ := none
  attention : Option ℚ := none
  focus : Option ℚ := none
  retention : Option ℚ := none
  assessment_score : Option ℚ := none
  engagement_time : Option ℚ := none
deriving Repr, DecidableEq

/-- JS `x || 0` on a possibly-missing numeric field: `undefined` (and a
present `0`) both give `0`. -/
def orZero (o : Option ℚ) : ℚ := o.getD 0

/-- Result shape of `LinearRegressionModel.predict`. -/
structure MLPrediction where
  predicted_score : ℚ
  confidence : ℚ
  feature_importance : List (String × ℚ)
deriving Repr, DecidableEq

/-- State of a `LinearRegressionModel` instance: `coefficients` (a
`Record<string, number>`, modelled as an association list), `intercept`, and
the `isTrained` flag. -/
structure LinearRegressionModel where
  coefficients : List (String × ℚ)
  intercept : ℚ
  isTrained : Bool
deriving Repr, DecidableEq

/-- A freshly constructed `LinearRegressionModel`: the TS field initialisers
`coefficients = {}`, `intercept = 0`, `isTrained = false`. -/
def initialModel : LinearRegressionModel :=
  { coefficients := [], intercept := 0, isTrained := false }

/-- Result shape of `getModelSummary` (the `Record<string, any>` literal it
returns). -/
structure ModelSummary where
  type : String
  coefficients : List (String × ℚ)
  intercept : ℚ
  trained : Bool
deriving Repr, DecidableEq

namespace LinearRegressionModel

/-- The fixed feature-name list used by `train` and `predict`. -/
def featureNames : List String :=
  ["comprehension", "attention", "focus", "retention", "engagement_time"]

/-- JS `this.coefficients[name]`: association-list lookup (every name looked
up after training is present; the default is never hit on-domain). -/
def coeffOf (m : LinearRegressionModel) (name : String) : ℚ :=
  (m.coefficients.lookup name).getD 0

/-- The feature vector `predict` builds from a partial record: each field read
with the `|| 0` falsy default, engagement time divided by 100. -/
def predictFeatures (s : PartialStudent) : List ℚ :=
  [orZero s.comprehension,
   orZero s.attention,
   orZero s.focus,
   orZero s.retention,
   orZero s.engagement_time / 100]

/-- The raw (unclipped) prediction: `intercept + Σ value·coefficient`,
accumulated over the five features exactly as the `forEach` loop does
(`features` and `featureNames` always have length five). -/
def rawPrediction (m : LinearRegressionModel) (s : PartialStudent) : ℚ :=
  m.intercept +
    (List.zipWith (fun v name => v * m.coeffOf name) (predictFeatures s) featureNames).sum

/-- The importance map built inside the `forEach` loop:
`importance[name] = Math.abs(coefficients[name])`. It reads only the
coefficients, never the feature values. -/
def rawImportance (m : LinearRegressionModel) : List (String × ℚ) :=
  featureNames.map fun name => (name, |m.coeffOf name|)

/-- Importance normalisation: each entry divided by the total and scaled
to percent. (If the total is zero, JS produces `NaN`; in `ℚ`, `0`.) -/
def normalizedImportance (m : LinearRegressionModel) : List (String × ℚ) :=
  (m.rawImportance).map fun p => (p.1, p.2 / ((m.rawImportance).map Prod.snd).sum * 100)

/-- The successful branch of `predict`: clipped score, clamped confidence,
normalised importance. -/
def predictCore (m : LinearRegressionModel) (s : PartialStudent) : MLPrediction :=
  { predicted_score := max 0 (min 100 (m.rawPrediction s))
    confidence := max 0.6 (min 0.95 (1 - |m.rawPrediction s - 75| / 100))
    feature_importance := m.normalizedImportance }

/-- `LinearRegressionModel.predict`: throws when untrained, otherwise returns
the prediction record. -/
def predict (m : LinearRegressionModel) (s : PartialStudent) : Except JsError MLPrediction :=
  if m.isTrained = false then
    Except.error (JsError.thrown "Model must be trained before making predictions")
  else
    Except.ok (m.predictCore s)

/-- `transpose`: `matrix[0].map((_, colIndex) => matrix.map(row => row[colIndex]))`. -/
def transpose (matrix : List (List ℚ)) : List (List ℚ) :=
  jsMapIdx (fun colIndex _ => matrix.map fun row => row.getD colIndex 0) (matrix.getD 0 [])

/-- `matrixMultiply`: `result[i][j] = Σ_k a[i][k] * b[k][j]`, with `j` ranging
over `b[0].length` and `k` over `b.length`. -/
def matrixMultiply (a b : List (List ℚ)) : List (List ℚ) :=
  a.map fun arow =>
    jsMapIdx
      (fun j _ => ((List.range b.length).map fun k => arow.getD k 0 * (b.getD k []).getD j 0).sum)
      (b.getD 0 [])

/-- `vectorMultiply`: `matrix.map(row => row.reduce((sum, val, index) => sum + val * vector[index], 0))`. -/
def vectorMultiply (matrix : List (List ℚ)) (vector : List ℚ) : List ℚ :=
  matrix.map fun row => (jsMapIdx (fun index v => v * vector.getD index 0) row).sum

/-- Partial-pivot selection in `matrixInverse`: starting from `maxRow = i`,
scan `k = i+1 .. n-1` and keep the first row with strictly larger `|aug[k][i]|`. -/
def pivotRowIndex (augmented : List (List ℚ)) (i n : ℕ) : ℕ :=
  (List.range' (i + 1) (n - (i + 1))).foldl
    (fun maxRow k =>
      if |(augmented.getD k []).getD i 0| > |(augmented.getD maxRow []).getD i 0| then k
      else maxRow)
    i

/-- The destructuring swap `[augmented[i], augmented[maxRow]] = [augmented[maxRow], augmented[i]]`. -/
def swapRows (augmented : List (List ℚ)) (i j : ℕ) : List (List ℚ) :=
  (augmented.set i (augmented.getD j [])).set j (augmented.getD i [])

/-- One pass of the Gaussian-elimination loop in `matrixInverse`: pick the
pivot row, swap it into place, scale it so the pivot becomes 1, and eliminate
the pivot column from every other row. There is no singularity check: a zero
pivot is divided by regardless (JS produces `Infinity`/`NaN`; in `ℚ`, `0`). -/
def elimStep (n : ℕ) (augmented : List (List ℚ)) (i : ℕ) : List (List ℚ) :=
  let maxRow := pivotRowIndex augmented i n
  let aug1 := swapRows augmented i maxRow
  let pivot := (aug1.getD i []).getD i 0
  let aug2 := aug1.set i ((aug1.getD i []).map fun x => x / pivot)
  jsMapIdx
    (fun k row =>
      if k = i then row
      else List.zipWith (fun x y => x - row.getD i 0 * y) row (aug2.getD i []))
    aug2

/-- `matrixInverse`: Gauss–Jordan on the augmented matrix `[M | I]`, returning
the right half. Total: it never throws, whatever the input. -/
def matrixInverse (matrix : List (List ℚ)) : List (List ℚ) :=
  let n := matrix.length
  let identity :=
    jsMapIdx (fun i _ => jsMapIdx (fun j _ => if i = j then (1 : ℚ) else 0) matrix) matrix
  let augmented := List.zipWith (fun row idRow => row ++ idRow) matrix identity
  ((List.range n).foldl (elimStep n) augmented).map fun row => row.drop n

/-- `fitLinearRegression`: normal-equation fit. Reading `X[0].length` on an
empty design matrix is a TypeError; otherwise the computation is total and
always returns coefficients (even for a singular `XᵗX`). -/
def fitLinearRegression (X : List (List ℚ)) (y : List ℚ) (featNames : List String) :
    Except JsError (ℚ × List (String × ℚ)) :=
  match X.head? with
  | none => Except.error JsError.typeError
  | some _ =>
    let XWithIntercept := X.map fun row => 1 :: row
    let XTranspose := transpose XWithIntercept
    let XTX := matrixMultiply XTranspose XWithIntercept
    let XTXInverse := matrixInverse XTX
    let XTy := vectorMultiply XTranspose y
    let coeffs := vectorMultiply XTXInverse XTy
    Except.ok (coeffs.getD 0 0, jsMapIdx (fun index name => (name, coeffs.getD (index + 1) 0)) featNames)

/-- `LinearRegressionModel.train`: builds the design matrix (engagement time
scaled by 1/100), fits, and returns the mutated instance state
(`coefficients`, `intercept`, `isTrained = true`). The previous state `m` is
overwritten, matching the in-place field assignment. -/
def train (m : LinearRegressionModel) (students : List Student) :
    Except JsError LinearRegressionModel :=
  let X := students.map fun s =>
    [s.comprehension, s.attention, s.focus, s.retention, s.engagement_time / 100]
  let y := students.map fun s => s.assessment_score
  match fitLinearRegression X y featureNames with
  | Except.error e => Except.error e
  | Except.ok result =>
    Except.ok { m with coefficients := result.2, intercept := result.1, isTrained := true }

/-- `getModelSummary`: unconditionally returns the summary object; it performs
no trained-state check. -/
def getModelSummary (m : LinearRegressionModel) : ModelSummary :=
  { type := "Linear Regression"
    coefficients := m.coefficients
    intercept := m.intercept
    trained := m.isTrained }

end LinearRegressionModel

/-- Result shape of one cluster summary (`ClusterResult` in the source); the
`characteristics` object has a fixed key set, modelled as a structure. -/
structure Characteristics where
  comprehension : ℚ
  attention : ℚ
  focus : ℚ
  retention : ℚ
  count : ℚ
  avg_assessment_score : ℚ
deriving Repr, DecidableEq

/-- A cluster summary: numeric cluster id (the k-means index), assigned
persona name/description, and aggregate characteristics. -/
structure ClusterResult where
  cluster_id : ℕ
  persona : String
  description : String
  characteristics : Characteristics
deriving Repr, DecidableEq

/-- State of a `StudentClusterer` instance: the derived summaries, the
trained centroids, and the `isTrained` flag. -/
structure StudentClusterer where
  clusters : List ClusterResult
  centroids : List (List ℚ)
  isTrained : Bool
deriving Repr, DecidableEq

/-- A freshly constructed `StudentClusterer` (field initialisers). -/
def initialClusterer : StudentClusterer :=
  { clusters := [], centroids := [], isTrained := false }

/-- An entry of the `centroidAverages` array: original centroid index plus the
mean of the centroid's coordinates. -/
structure IdxAvg where
  idx : ℕ
  average : ℚ
deriving Repr, DecidableEq

namespace StudentClusterer

/-- Squared Euclidean distance, `Σ (a[index] − b[index])²` over `a`'s indices.
The source takes `Math.sqrt` of this sum, but every use of the distance is a
comparison, and square root is strictly monotone on nonnegative reals, so
comparisons of the squared distance agree exactly with the source (including
tie-breaking). -/
def distSq (a b : List ℚ) : ℚ :=
  (jsMapIdx (fun index v => (v - b.getD index 0) ^ 2) a).sum

/-- The nearest-centroid scan used by both `predictCluster` and `kmeans`:
`minDistance` starts at `Infinity` (modelled by `none`) and `nearest` at 0;
a centroid wins only with a strictly smaller distance, so the
first-encountered lowest index wins ties. -/
def nearestCentroid (centroids : List (List ℚ)) (point : List ℚ) : ℕ :=
  ((centroids.enum).foldl
    (fun (acc : ℕ × Option ℚ) ic =>
      match acc.2 with
      | none => (ic.1, some (distSq point ic.2))
      | some m => if distSq point ic.2 < m then (ic.1, some (distSq point ic.2)) else acc)
    (0, none)).1

/-- Per-column means over the training features (`means[i] = Σ column i / n`). -/
def columnMeans (features : List (List ℚ)) (numFeatures : ℕ) : List ℚ :=
  (List.range numFeatures).map fun i =>
    ((features.map fun row => row.getD i 0).sum) / (features.length : ℚ)

/-- Per-column standard deviations (`Math.sqrt` of the population variance). -/
def columnStds (features : List (List ℚ)) (means : List ℚ) (numFeatures : ℕ) : List ℚ :=
  (List.range numFeatures).map fun i =>
    ratSqrt (((features.map fun row => (row.getD i 0 - means.getD i 0) ^ 2).sum) /
      (features.length : ℚ))

/-- `normalizeFeatures`: z-scores each column; a zero standard deviation is
replaced by 1 (the `stds[index] || 1` falsy default). Reading
`features[0].length` on an empty list is a TypeError. The means and stds are
locals of this method: the class does not store them. -/
def normalizeFeatures (features : List (List ℚ)) : Except JsError (List (List ℚ)) :=
  match features.head? with
  | none => Except.error JsError.typeError
  | some first =>
    let means := columnMeans features first.length
    let stds := columnStds features means first.length
    Except.ok (features.map fun row =>
      jsMapIdx
        (fun index v =>
          (v - means.getD index 0) /
            (if stds.getD index 0 = 0 then 1 else stds.getD index 0))
        row)

/-- The assignment pass of one k-means iteration: each point goes to its
nearest centroid. -/
def assignLabels (data : List (List ℚ)) (centroids : List (List ℚ)) : List ℕ :=
  data.map fun point => nearestCentroid centroids point

/-- Number of points assigned to cluster `j` (the `counts[cluster]++` array). -/
def countOf (pairs : List (List ℚ × ℕ)) (j : ℕ) : ℕ :=
  (pairs.filter fun pd => pd.2 = j).length

/-- `newCentroids[cluster][dim] += val` for one data point. -/
def addPoint (acc : List (List ℚ)) (cluster : ℕ) (point : List ℚ) : List (List ℚ) :=
  acc.set cluster (List.zipWith (fun x y => x + y) (acc.getD cluster []) point)

/-- Accumulation of all points into the zero-initialised `newCentroids`. -/
def sumCentroids (pairs : List (List ℚ × ℕ)) (acc : List (List ℚ)) : List (List ℚ) :=
  pairs.foldl (fun a pd => addPoint a pd.2 pd.1) acc

/-- The centroid-update pass of one k-means iteration: `newCentroids` starts
as a k×d zero matrix, every point is added into its cluster's row, and a row
is divided by its count only when the count is positive — a cluster with no
points keeps the zero row it was initialised with (it is NOT restored to the
previous centroid position). -/
def updateCentroids (data : List (List ℚ)) (labels : List ℕ) (k d : ℕ) : List (List ℚ) :=
  let pairs := data.zip labels
  let sums := sumCentroids pairs (List.replicate k (List.replicate d (0 : ℚ)))
  jsMapIdx
    (fun j row =>
      if 0 < countOf pairs j then row.map fun x => x / (countOf pairs j : ℚ) else row)
    sums

/-- The `for (iter...)` loop of `kmeans`: compute new labels, stop when they
match the previous labels, otherwise update the centroids and continue; when
the iteration cap is exhausted, return the current labels and centroids. -/
def kmeansLoop (data : List (List ℚ)) (k d : ℕ) :
    ℕ → List ℕ → List (List ℚ) → List ℕ × List (List ℚ)
  | 0, labels, centroids => (labels, centroids)
  | fuel + 1, labels, centroids =>
    let newLabels := assignLabels data centroids
    if newLabels = labels then (labels, centroids)
    else kmeansLoop data k d fuel newLabels (updateCentroids data newLabels k d)

/-- `kmeans`: initial centroids are copies of randomly picked data rows —
the random picks `Math.floor(Math.random() * n)` are passed in explicitly as
`picks` — and labels start as `Array(n).fill(0)`. -/
def kmeans (data : List (List ℚ)) (k : ℕ) (picks : List ℕ)
    (maxIterations : ℕ := 100) : List ℕ × List (List ℚ) :=
  let d := (data.getD 0 []).length
  let centroids := picks.map fun i => data.getD i []
  kmeansLoop data k d maxIterations (List.replicate data.length 0) centroids

/-- The fixed persona table (`personas` array literal). -/
def personas : List (String × String) :=
  [("High Achievers", "Excellent performance across all cognitive skills"),
   ("Balanced Learners", "Good overall performance with consistent skills"),
   ("Developing Students", "Average performance with room for improvement"),
   ("Struggling Learners", "Lower performance requiring targeted support")]

/-- Descending insertion used to model `Array.prototype.sort` with comparator
`(a, b) => b.average - a.average`: JS sort is stable and, with this
comparator, orders entries by descending average; a stable insertion sort has
exactly that behaviour. -/
def insertDesc (x : IdxAvg) : List IdxAvg → List IdxAvg
  | [] => [x]
  | y :: ys => if y.average ≤ x.average then x :: y :: ys else y :: insertDesc x ys

/-- Stable descending sort by `.average`. -/
def sortDesc (l : List IdxAvg) : List IdxAvg :=
  l.foldr insertDesc []

/-- The `centroidAverages` array before sorting: each centroid index paired
with the mean of its coordinates. -/
def centroidAvgs (centroids : List (List ℚ)) : List IdxAvg :=
  jsMapIdx (fun index c => { idx := index, average := c.sum / (c.length : ℚ) }) centroids

/-- One element of the final `this.clusters` array: persona looked up by rank
(`personas[personaIndex]` — `undefined` and hence a TypeError when the rank
exceeds the table, i.e. when more than four clusters are requested), members
collected by `students.filter((_, index) => labels[index] === item.index)`,
centroid coordinates scaled by 100, and the members' mean assessment score
(JS `NaN` — here `0` — for an empty cluster). -/
def mkClusterResult (students : List Student) (centroids : List (List ℚ))
    (labels : List ℕ) (personaIndex : ℕ) (item : IdxAvg) : Option ClusterResult :=
  (personas.get? personaIndex).map fun p =>
    let centroid := centroids.getD item.idx []
    let studentsInCluster :=
      ((students.enum).filter fun q => labels.get? q.1 = some item.idx).map Prod.snd
    { cluster_id := item.idx
      persona := p.1
      description := p.2
      characteristics :=
        { comprehension := centroid.getD 0 0 * 100
          attention := centroid.getD 1 0 * 100
          focus := centroid.getD 2 0 * 100
          retention := centroid.getD 3 0 * 100
          count := (studentsInCluster.length : ℚ)
          avg_assessment_score :=
            (studentsInCluster.map fun s => s.assessment_score).sum /
              (studentsInCluster.length : ℚ) } }

/-- The `centroidAverages.map((item, personaIndex) => ...)` pass, with the
running persona rank made explicit; `none` models the TypeError of reading
`.name` on an out-of-table persona. -/
def assignPersonas (students : List Student) (centroids : List (List ℚ))
    (labels : List ℕ) : ℕ → List IdxAvg → Option (List ClusterResult)
  | _, [] => some []
  | i, item :: rest =>
    match mkClusterResult students centroids labels i item with
    | none => none
    | some c =>
      match assignPersonas students centroids labels (i + 1) rest with
      | none => none
      | some cs => some (c :: cs)

/-- Persona assignment and summary construction (`clusterStudents` lines
204–234): sort centroid averages descending, then map ranks to personas. -/
def buildClusters (students : List Student) (centroids : List (List ℚ))
    (labels : List ℕ) : Except JsError (List ClusterResult) :=
  match assignPersonas students centroids labels 0 (sortDesc (centroidAvgs centroids)) with
  | none => Except.error JsError.typeError
  | some cs => Except.ok cs

/-- `clusterStudents`: extract the four cognitive features, z-score them, run
k-means, store centroids, set `isTrained`, and build the persona-labelled
summaries. There is no check of `students.length` against `numClusters`.
Returns the mutated instance state together with the returned summary list. -/
def clusterStudents (students : List Student) (numClusters : ℕ) (picks : List ℕ) :
    Except JsError (StudentClusterer × List ClusterResult) :=
  let features := students.map fun s => [s.comprehension, s.attention, s.focus, s.retention]
  match normalizeFeatures features with
  | Except.error e => Except.error e
  | Except.ok normalizedFeatures =>
    let result := kmeans normalizedFeatures numClusters picks
    match buildClusters students result.2 result.1 with
    | Except.error e => Except.error e
    | Except.ok clusters =>
      Except.ok ({ clusters := clusters, centroids := result.2, isTrained := true }, clusters)

/-- `predictCluster`: returns `null` when untrained; otherwise builds the
feature vector by dividing each (falsy-defaulted) field by 100 — NOT by the
z-score the training pass used; the class never stored the training means or
standard deviations — finds the nearest stored centroid, and returns the
summary with that cluster id. -/
def predictCluster (c : StudentClusterer) (s : PartialStudent) : Option ClusterResult :=
  if c.isTrained = false then none
  else
    let features :=
      [orZero s.comprehension / 100,
       orZero s.attention / 100,
       orZero s.focus / 100,
       orZero s.retention / 100]
    let nearest := nearestCentroid c.centroids features
    c.clusters.find? fun cl => cl.cluster_id = nearest

/-- Modelled from the spec (for comparison with the source's `predictCluster`;
this behaviour is absent from the code): "normalizes the record with the
Normalizer's stored mean/std, finds the nearest centroid by Euclidean
distance, and returns that cluster's summary; returns no result if the
engine has not been trained." The stored means and stds the spec refers to
are passed in explicitly, since the class stores none. -/
def predictClusterSpec (c : StudentClusterer) (means stds : List ℚ)
    (s : PartialStudent) : Option ClusterResult :=
  if c.isTrained = false then none
  else
    let features :=
      [orZero s.comprehension, orZero s.attention, orZero s.focus, orZero s.retention]
    let normalized :=
      jsMapIdx
        (fun index v =>
          (v - means.getD index 0) /
            (if stds.getD index 0 = 0 then 1 else stds.getD index 0))
        features
    let nearest := nearestCentroid c.centroids normalized
    c.clusters.find? fun cl => cl.cluster_id = nearest

end StudentClusterer

/-! Concrete inputs and small auxiliary definitions used by the theorems. -/

/-- True exactly when the result is an explicit `throw new Error(...)` (as
opposed to a success or a runtime TypeError). -/
def isThrown (e : Except JsError α) : Bool :=
  match e with
  | Except.error (JsError.thrown _) => true
  | _ => false

/-- The clamp function as the specification writes it:
`clamp(x, lo, hi) = max(lo, min(hi, x))`. -/
def clamp (x lo hi : ℚ) : ℚ := max lo (min hi x)

/-- Descending order on centroid-average entries (the comparator
`(a, b) => b.average - a.average` sorts so that later entries have smaller or
equal averages). -/
def descRel (a b : IdxAvg) : Prop := b.average ≤ a.average

/-- Training student with all-zero cognitive features. -/
def s1C1 : Student := ⟨0, 0, 0, 0, 20, 50⟩

/-- Training student with all-100 cognitive features. -/
def s2C1 : Student := ⟨100, 100, 100, 100, 80, 250⟩

/-- The cognitive-feature matrix `clusterStudents` builds from `[s1C1, s2C1]`. -/
def trainFeatsC1 : List (List ℚ) :=
  [s1C1, s2C1].map fun s => [s.comprehension, s.attention, s.focus, s.retention]

/-- A record with every cognitive feature equal to 40. -/
def recC1 : PartialStudent :=
  { comprehension := some 40, attention := some 40, focus := some 40, retention := some 40 }

/-- A student used (twice) to produce a collinear design matrix. -/
def stuDup : Student := ⟨1, 2, 3, 4, 5, 100⟩

/-- A single arbitrary concrete student. -/
def oneStudent : Student := ⟨55, 65, 75, 85, 90, 120⟩

/-- The empty partial record. -/
def emptyRecord : PartialStudent := {}

/-- A concrete trained regression model. -/
def trainedModelW : LinearRegressionModel :=
  { coefficients := [("comprehension", 2), ("attention", -1)], intercept := 5,
    isTrained := true }

/-- A partial record carrying only a comprehension value. -/
def recW : PartialStudent := { comprehension := some 10 }

/-- Concrete centroids for the persona-ordering witness. -/
def centsW8 : List (List ℚ) := [[1, 1, 1, 1], [3, 3, 3, 3]]

/-- The summaries `buildClusters` produces from `[oneStudent]`, `centsW8` and
labels `[1]`. -/
def clustersW8 : List ClusterResult :=
  [{ cluster_id := 1, persona := "High Achievers",
     description := "Excellent performance across all cognitive skills",
     characteristics :=
       { comprehension := 300, attention := 300, focus := 300, retention := 300,
         count := 1, avg_assessment_score := 90 } },
   { cluster_id := 0, persona := "Balanced Learners",
     description := "Good overall performance with consistent skills",
     characteristics :=
       { comprehension := 100, attention := 100, focus := 100, retention := 100,
         count := 0, avg_assessment_score := 0 } }]

/-! Theorems. -/

set_option maxRecDepth 100000

open LinearRegressionModel StudentClusterer

/-- C1: the claim says predictCluster z-scores the record with the
normalizer's stored per-feature mean and standard deviation before the
nearest-centroid search. The code instead divides each feature by 100 (and
stores no mean/std at all), while the centroids live in z-score space. On the
clusterer trained on the two students with all-0 and all-100 features
(k = 2, initial picks rows 0 and 1), the record with all features 40 is sent
to cluster 1 by the code, whereas the spec's z-score normalization (mean 50,
std 50, giving −0.2 per coordinate) puts its nearest centroid at cluster 0. -/
theorem claim1_predictCluster_ignores_normalizer :
    (StudentClusterer.clusterStudents [s1C1, s2C1] 2 [0, 1]).map
        (fun st =>
          ((StudentClusterer.predictCluster st.1 recC1).map fun r => r.cluster_id,
           (StudentClusterer.predictClusterSpec st.1
               (StudentClusterer.columnMeans trainFeatsC1 4)
               (StudentClusterer.columnStds trainFeatsC1
                 (StudentClusterer.columnMeans trainFeatsC1 4) 4)
               recC1).map fun r => r.cluster_id))
      = Except.ok (some 1, some 0) := by rfl

/-- C2 counterexample: on data [[0],[10],[10]] with k = 3 and initial
centroids picked from rows 1, 1, 0 (so [[10],[10],[0]]), the first iteration
assigns the points to clusters [2,0,0], leaving cluster 1 with zero assigned
points; the update then moves centroid 1 from its previous position [10] to
the zero vector [0] — it does not keep its previous position — and the zero
vector survives into the final result of kmeans. -/
theorem claim2_empty_cluster_counterexample :
    StudentClusterer.assignLabels [[(0 : ℚ)], [10], [10]] [[10], [10], [0]] = [2, 0, 0]
    ∧ StudentClusterer.countOf (([[(0 : ℚ)], [10], [10]]).zip [2, 0, 0]) 1 = 0
    ∧ (StudentClusterer.updateCentroids [[(0 : ℚ)], [10], [10]] [2, 0, 0] 3 1).getD 1 [] = [0]
    ∧ ([[(10 : ℚ)], [10], [0]].getD 1 []) = [10]
    ∧ (([0] : List ℚ) ≠ [10])
    ∧ (StudentClusterer.kmeans [[(0 : ℚ)], [10], [10]] 3 [1, 1, 0]).2 = [[10], [0], [0]] := by
  refine ⟨by rfl, by rfl, by rfl, by rfl, by decide, by rfl⟩

/-- C4 counterexample: clustering a single student with the default k = 4
(so records.length < k) raises nothing at all — no EmptyDatasetError exists
in the code — and returns a successful result. -/
theorem claim4_small_dataset_counterexample :
    ([oneStudent].length < 4)
    ∧ (StudentClusterer.clusterStudents [oneStudent] 4 [0, 0, 0, 0]).isOk = true
    ∧ isThrown (StudentClusterer.clusterStudents [oneStudent] 4 [0, 0, 0, 0]) = false := by
  refine ⟨by decide, by rfl, by rfl⟩

/-- C3: the claim says a numerically zero pivot makes the engine fail with a
SingularMatrixError instead of dividing by the near-zero pivot. The code has
no such error and no pivot check at all: inverting the singular matrix
[[1,1],[1,1]] silently divides by the zero pivot and returns a garbage
"inverse" (in exact arithmetic [[1,0],[0,0]]; in JS, NaN/Infinity entries),
and training on two identical students (singular XᵗX) succeeds with garbage
coefficients instead of propagating any error. -/
theorem claim3_no_singular_matrix_error :
    matrixInverse [[1, 1], [1, 1]] = [[1, 0], [0, 0]]
    ∧ (LinearRegressionModel.train initialModel [stuDup, stuDup]).isOk = true
    ∧ isThrown (LinearRegressionModel.train initialModel [stuDup, stuDup]) = false := by
  refine ⟨by decide, by decide, by decide⟩

/-- C5 counterexample: `train([])` does fail, but with a runtime TypeError
(reading `X[0].length` on the empty design matrix), not with any explicitly
thrown error — in particular not with an EmptyDatasetError, which exists
nowhere in the code. -/
theorem claim5_train_empty_counterexample :
    LinearRegressionModel.train initialModel [] = Except.error JsError.typeError
    ∧ isThrown (LinearRegressionModel.train initialModel []) = false := by
  exact ⟨rfl, rfl⟩

/-- C5 amended: calling train with an empty record list fails, but with an
undefined-access TypeError raised while building the design matrix, not with
a typed EmptyDatasetError; the code performs no empty-dataset check. -/
theorem claim5_train_empty_typeError :
    ∀ m : LinearRegressionModel,
      LinearRegressionModel.train m [] = Except.error JsError.typeError := by
  intro m; rfl

/-- C6 counterexample: `getModelSummary` is a read of the fitted state other
than train, yet on a never-trained model it does not fail — it returns a
summary object (with `trained = false` and empty coefficients). -/
theorem claim6_summary_read_succeeds_untrained :
    LinearRegressionModel.getModelSummary initialModel =
      { type := "Linear Regression", coefficients := [], intercept := 0,
        trained := false } := by
  rfl

/-- C6 amended: while the trained flag is false, a fresh model holds no
coefficients and `predict` fails — with a generic thrown
`Error("Model must be trained before making predictions")`, there is no
NotTrainedError class — but not every read fails: `getModelSummary` succeeds
on an untrained model and reports its state. -/
theorem claim6_untrained_behavior :
    ∀ (m : LinearRegressionModel) (s : PartialStudent), m.isTrained = false →
      LinearRegressionModel.predict m s =
        Except.error (JsError.thrown "Model must be trained before making predictions")
      ∧ LinearRegressionModel.getModelSummary m =
          { type := "Linear Regression", coefficients := m.coefficients,
            intercept := m.intercept, trained := false }
      ∧ initialModel.coefficients = [] := by
  intro m s h
  refine ⟨?_, ?_, rfl⟩
  · simp [LinearRegressionModel.predict, h]
  · simp [LinearRegressionModel.getModelSummary, h]

/-- Witness for C6: the fresh model is untrained, its predict call throws and
its summary read succeeds. -/
theorem claim6_untrained_behavior_witness :
    initialModel.isTrained = false
    ∧ LinearRegressionModel.predict initialModel emptyRecord =
        Except.error (JsError.thrown "Model must be trained before making predictions")
    ∧ LinearRegressionModel.getModelSummary initialModel =
        { type := "Linear Regression", coefficients := initialModel.coefficients,
          intercept := initialModel.intercept, trained := false } :=
  ⟨rfl, (claim6_untrained_behavior initialModel emptyRecord rfl).1,
    (claim6_untrained_behavior initialModel emptyRecord rfl).2.1⟩

/-- C7: for every trained model and every record, whatever the magnitude of
the feature values, the predicted score lies in [0,100] and the confidence
lies in [0.6,0.95] and equals clamp(1 − |prediction − 75| / 100, 0.6, 0.95). -/
theorem claim7_predict_bounds :
    ∀ (m : LinearRegressionModel) (s : PartialStudent), m.isTrained = true →
      LinearRegressionModel.predict m s = Except.ok (m.predictCore s)
      ∧ 0 ≤ (m.predictCore s).predicted_score
      ∧ (m.predictCore s).predicted_score ≤ 100
      ∧ (0.6 : ℚ) ≤ (m.predictCore s).confidence
      ∧ (m.predictCore s).confidence ≤ 0.95
      ∧ (m.predictCore s).confidence =
          clamp (1 - |m.rawPrediction s - 75| / 100) 0.6 0.95 := by
  intro m s h
  refine ⟨by simp [LinearRegressionModel.predict, h], ?_, ?_, ?_, ?_, rfl⟩
  · exact le_max_left _ _
  · exact max_le (by norm_num) (min_le_left _ _)
  · exact le_max_left _ _
  · exact max_le (by norm_num) (min_le_left _ _)

/-- Witness for C7 at a concrete trained model and record. -/
theorem claim7_predict_bounds_witness :
    trainedModelW.isTrained = true
    ∧ 0 ≤ (trainedModelW.predictCore recW).predicted_score
    ∧ (trainedModelW.predictCore recW).predicted_score ≤ 100
    ∧ (0.6 : ℚ) ≤ (trainedModelW.predictCore recW).confidence
    ∧ (trainedModelW.predictCore recW).confidence ≤ 0.95 :=
  ⟨rfl, (claim7_predict_bounds trainedModelW recW rfl).2.1,
    (claim7_predict_bounds trainedModelW recW rfl).2.2.1,
    (claim7_predict_bounds trainedModelW recW rfl).2.2.2.1,
    (claim7_predict_bounds trainedModelW recW rfl).2.2.2.2.1⟩

/-- C9: for a fixed trained model, the feature-importance map returned by
predict is the same for every input record — it is computed from the trained
coefficients only. -/
theorem claim9_importance_independent_of_record :
    ∀ (m : LinearRegressionModel) (r1 r2 : PartialStudent), m.isTrained = true →
      (LinearRegressionModel.predict m r1).map (fun p => p.feature_importance) =
      (LinearRegressionModel.predict m r2).map (fun p => p.feature_importance) := by
  intro m r1 r2 h
  simp [LinearRegressionModel.predict, h, Except.map, LinearRegressionModel.predictCore]

/-- Witness for C9: two different concrete records give the same importance
map under a concrete trained model. -/
theorem claim9_importance_independent_witness :
    trainedModelW.isTrained = true
    ∧ (LinearRegressionModel.predict trainedModelW recW).map (fun p => p.feature_importance) =
      (LinearRegressionModel.predict trainedModelW emptyRecord).map (fun p => p.feature_importance) :=
  ⟨rfl, claim9_importance_independent_of_record trainedModelW recW emptyRecord rfl⟩

/-- C10: a missing feature field is read with the `|| 0` falsy default, so
both `predict` and `predictCluster` return identical results on a record
missing a field and on the same record with that field set to 0. -/
theorem claim10_missing_fields_default_to_zero :
    (∀ (m : LinearRegressionModel) (s : PartialStudent),
      LinearRegressionModel.predict m { s with comprehension := none } =
        LinearRegressionModel.predict m { s with comprehension := some 0 }
      ∧ LinearRegressionModel.predict m { s with attention := none } =
        LinearRegressionModel.predict m { s with attention := some 0 }
      ∧ LinearRegressionModel.predict m { s with focus := none } =
        LinearRegressionModel.predict m { s with focus := some 0 }
      ∧ LinearRegressionModel.predict m { s with retention := none } =
        LinearRegressionModel.predict m { s with retention := some 0 }
      ∧ LinearRegressionModel.predict m { s with engagement_time := none } =
        LinearRegressionModel.predict m { s with engagement_time := some 0 })
    ∧ (∀ (c : StudentClusterer) (s : PartialStudent),
      StudentClusterer.predictCluster c { s with comprehension := none } =
        StudentClusterer.predictCluster c { s with comprehension := some 0 }
      ∧ StudentClusterer.predictCluster c { s with attention := none } =
        StudentClusterer.predictCluster c { s with attention := some 0 }
      ∧ StudentClusterer.predictCluster c { s with focus := none } =
        StudentClusterer.predictCluster c { s with focus := some 0 }
      ∧ StudentClusterer.predictCluster c { s with retention := none } =
        StudentClusterer.predictCluster c { s with retention := some 0 }) := by
  exact ⟨fun m s => ⟨rfl, rfl, rfl, rfl, rfl⟩, fun c s => ⟨rfl, rfl, rfl, rfl⟩⟩

theorem h_sumCentroids_length (pairs : List (List ℚ × ℕ)) (acc : List (List ℚ)) :
    (StudentClusterer.sumCentroids pairs acc).length = acc.length := by
  induction pairs generalizing acc with
  | nil => rfl
  | cons pd rest ih =>
    show (StudentClusterer.sumCentroids rest (StudentClusterer.addPoint acc pd.2 pd.1)).length = _
    rw [ih]
    simp [StudentClusterer.addPoint]

theorem h_sumCentroids_getD (pairs : List (List ℚ × ℕ)) :
    ∀ (acc : List (List ℚ)) (j : ℕ), j < acc.length →
      (StudentClusterer.sumCentroids pairs acc).getD j [] =
        ((pairs.filter fun pd => pd.2 = j).map Prod.fst).foldl
          (fun r p => List.zipWith (fun x y => x + y) r p) (acc.getD j []) := by
  induction pairs with
  | nil => intro acc j hj; rfl
  | cons pd rest ih =>
    intro acc j hj
    show (StudentClusterer.sumCentroids rest (StudentClusterer.addPoint acc pd.2 pd.1)).getD j [] = _
    by_cases hc : pd.2 = j
    · subst hc
      rw [ih (StudentClusterer.addPoint acc pd.2 pd.1) pd.2
            (by simpa [StudentClusterer.addPoint] using hj)]
      have hrow : (StudentClusterer.addPoint acc pd.2 pd.1).getD pd.2 [] =
          List.zipWith (fun x y => x + y) (acc.getD pd.2 []) pd.1 := by
        simp [StudentClusterer.addPoint, List.getD_eq_getElem?_getD, List.getElem?_set_self hj]
      rw [hrow]
      simp
    · rw [ih (StudentClusterer.addPoint acc pd.2 pd.1) j
            (by simpa [StudentClusterer.addPoint] using hj)]
      have hrow : (StudentClusterer.addPoint acc pd.2 pd.1).getD j [] = acc.getD j [] := by
        simp [StudentClusterer.addPoint, List.getD_eq_getElem?_getD, List.getElem?_set_ne hc]
      rw [hrow]
      simp [hc]

theorem h_jsMapIdxFrom_getElem (f : ℕ → α → β) :
    ∀ (l : List α) (i j : ℕ),
      (jsMapIdxFrom f i l)[j]? = (l[j]?).map fun a => f (i + j) a := by
  intro l
  induction l with
  | nil => intro i j; simp [jsMapIdxFrom]
  | cons a as ih =>
    intro i j
    cases j with
    | zero => simp [jsMapIdxFrom]
    | succ n =>
      simp only [jsMapIdxFrom, List.getElem?_cons_succ]
      rw [ih (i + 1) n]
      have hin : i + 1 + n = i + (n + 1) := by omega
      rw [hin]

theorem h_jsMapIdx_getElem (f : ℕ → α → β) (l : List α) (j : ℕ) :
    (jsMapIdx f l)[j]? = (l[j]?).map fun a => f j a := by
  have h := h_jsMapIdxFrom_getElem f l 0 j
  simpa [jsMapIdx] using h

theorem h_jsMapIdxFrom_length (f : ℕ → α → β) :
    ∀ (i : ℕ) (l : List α), (jsMapIdxFrom f i l).length = l.length := by
  intro i l
  induction l generalizing i with
  | nil => rfl
  | cons a as ih => simpa [jsMapIdxFrom] using ih (i + 1)

theorem h_jsMapIdx_length (f : ℕ → α → β) (l : List α) :
    (jsMapIdx f l).length = l.length := h_jsMapIdxFrom_length f 0 l

/-- C2 amended: in every k-means centroid update, each centroid with at
least one assigned point is recomputed as the mean of its assigned points
(their componentwise sum divided by their count), but a centroid with zero
assigned points in that iteration is reset to the zero vector — it does NOT
keep its previous position, because the update writes into a freshly
zero-initialised array and only skips the division for empty clusters. -/
theorem claim2_centroid_update :
    ∀ (data : List (List ℚ)) (labels : List ℕ) (k d j : ℕ), j < k →
      (StudentClusterer.countOf (data.zip labels) j = 0 →
        (StudentClusterer.updateCentroids data labels k d).getD j [] =
          List.replicate d (0 : ℚ))
      ∧ (0 < StudentClusterer.countOf (data.zip labels) j →
        (StudentClusterer.updateCentroids data labels k d).getD j [] =
          ((((data.zip labels).filter fun pd => pd.2 = j).map Prod.fst).foldl
              (fun r p => List.zipWith (fun x y => x + y) r p)
              (List.replicate d (0 : ℚ))).map
            fun x => x / (StudentClusterer.countOf (data.zip labels) j : ℚ)) := by
  intro data labels k d j hj
  have hslen : (StudentClusterer.sumCentroids (data.zip labels)
      (List.replicate k (List.replicate d (0 : ℚ)))).length = k := by
    rw [h_sumCentroids_length]; simp
  have hjs : j < (StudentClusterer.sumCentroids (data.zip labels)
      (List.replicate k (List.replicate d (0 : ℚ)))).length := by rw [hslen]; exact hj
  have hrowval : (StudentClusterer.sumCentroids (data.zip labels)
      (List.replicate k (List.replicate d (0 : ℚ)))).getD j [] =
      (((data.zip labels).filter fun pd => pd.2 = j).map Prod.fst).foldl
        (fun r p => List.zipWith (fun x y => x + y) r p) (List.replicate d (0 : ℚ)) := by
    rw [h_sumCentroids_getD (data.zip labels) _ j (by simpa using hj)]
    rw [List.getD_eq_getElem?_getD, List.getElem?_replicate_of_lt hj]
    rfl
  have hupd : (StudentClusterer.updateCentroids data labels k d).getD j [] =
      (if 0 < StudentClusterer.countOf (data.zip labels) j then
        ((StudentClusterer.sumCentroids (data.zip labels)
            (List.replicate k (List.replicate d (0 : ℚ)))).getD j []).map
          fun x => x / (StudentClusterer.countOf (data.zip labels) j : ℚ)
      else (StudentClusterer.sumCentroids (data.zip labels)
            (List.replicate k (List.replicate d (0 : ℚ)))).getD j []) := by
    show (jsMapIdx _ _).getD j [] = _
    rw [List.getD_eq_getElem?_getD, h_jsMapIdx_getElem,
      List.getElem?_eq_getElem hjs]
    rw [List.getD_eq_getElem?_getD, List.getElem?_eq_getElem hjs]
    rfl
  constructor
  · intro h0
    have hnot : ¬ 0 < StudentClusterer.countOf (data.zip labels) j := by omega
    have hfil : ((data.zip labels).filter fun pd => pd.2 = j) = [] := by
      have := List.length_eq_zero.mp h0
      exact this
    rw [hupd, if_neg hnot, hrowval, hfil]
    rfl
  · intro hpos
    rw [hupd, if_pos hpos, hrowval]

/-- Witness for C2 at the concrete first iteration of the counterexample
run: cluster 1 receives zero points and its updated centroid is the zero
vector. -/
theorem claim2_centroid_update_witness :
    (1 < 3)
    ∧ (StudentClusterer.updateCentroids [[(0 : ℚ)], [10], [10]] [2, 0, 0] 3 1).getD 1 [] =
        List.replicate 1 (0 : ℚ) :=
  ⟨by omega,
    (claim2_centroid_update [[(0 : ℚ)], [10], [10]] [2, 0, 0] 3 1 1 (by omega)).1 (by rfl)⟩

/-- The model square root of zero is zero. -/
theorem h_ratSqrt_zero : ratSqrt 0 = 0 := by decide

/-- Normalizing a single four-feature row: every column mean equals the
row's own value and every standard deviation is zero (replaced by one), so
the normalized matrix is the zero row. -/
theorem h_normalize_single (c a f r : ℚ) :
    StudentClusterer.normalizeFeatures [[c, a, f, r]] = Except.ok [[0, 0, 0, 0]] := by
  have h4 : List.range 4 = [0, 1, 2, 3] := rfl
  simp [StudentClusterer.normalizeFeatures, StudentClusterer.columnMeans,
    StudentClusterer.columnStds, jsMapIdx, jsMapIdxFrom, h4, h_ratSqrt_zero]

/-- C4 amended: `clusterStudents` performs no record-count check at all and
never raises an EmptyDatasetError (none exists in the code). With one record
and the default k = 4 (so records.length < k) it returns normally with
exactly 4 cluster summaries and throws nothing; with an empty record list it
crashes with an undefined-access TypeError from `features[0].length`; and
with k = 5 the persona-table read `personas[4].name` crashes with a
TypeError regardless of the record count. -/
theorem claim4_no_size_check :
    (∀ s : Student, ([s].length < 4)
      ∧ (StudentClusterer.clusterStudents [s] 4 [0, 0, 0, 0]).map (fun p => p.2.length)
          = Except.ok 4
      ∧ isThrown (StudentClusterer.clusterStudents [s] 4 [0, 0, 0, 0]) = false)
    ∧ StudentClusterer.clusterStudents [] 4 [] = Except.error JsError.typeError
    ∧ (∀ s : Student,
        StudentClusterer.clusterStudents [s] 5 [0, 0, 0, 0, 0] =
          Except.error JsError.typeError) := by
  refine ⟨?_, rfl, ?_⟩
  · intro s
    refine ⟨by simp, ?_, ?_⟩
    · simp only [StudentClusterer.clusterStudents, List.map_cons, List.map_nil,
        h_normalize_single]
      rfl
    · simp only [StudentClusterer.clusterStudents, List.map_cons, List.map_nil,
        h_normalize_single]
      rfl
  · intro s
    simp only [StudentClusterer.clusterStudents, List.map_cons, List.map_nil,
      h_normalize_single]
    rfl

/-- Inserting into the descending-sorted list is a permutation of consing. -/
theorem h_insertDesc_perm (x : IdxAvg) (l : List IdxAvg) :
    (StudentClusterer.insertDesc x l).Perm (x :: l) := by
  induction l with
  | nil => exact List.Perm.refl _
  | cons y ys ih =>
    rw [StudentClusterer.insertDesc]
    by_cases h : y.average ≤ x.average
    · rw [if_pos h]
    · rw [if_neg h]
      exact (ih.cons y).trans (List.Perm.swap x y ys)

/-- The stable descending sort permutes its input. -/
theorem h_sortDesc_perm (l : List IdxAvg) : (StudentClusterer.sortDesc l).Perm l := by
  induction l with
  | nil => exact List.Perm.refl _
  | cons a l ih =>
    have : StudentClusterer.sortDesc (a :: l) =
        StudentClusterer.insertDesc a (StudentClusterer.sortDesc l) := rfl
    rw [this]
    exact (h_insertDesc_perm a (StudentClusterer.sortDesc l)).trans (ih.cons a)

/-- Descending insertion preserves descending sortedness. -/
theorem h_insertDesc_sorted (x : IdxAvg) (l : List IdxAvg)
    (h : List.Sorted descRel l) : List.Sorted descRel (StudentClusterer.insertDesc x l) := by
  induction l with
  | nil => simp [StudentClusterer.insertDesc, descRel]
  | cons y ys ih =>
    rw [StudentClusterer.insertDesc]
    rcases List.sorted_cons.mp h with ⟨hy, hys⟩
    by_cases hxy : y.average ≤ x.average
    · rw [if_pos hxy]
      refine List.sorted_cons.mpr ⟨?_, h⟩
      intro b hb
      rcases List.mem_cons.mp hb with rfl | hb
      · exact hxy
      · exact le_trans (hy b hb) hxy
    · rw [if_neg hxy]
      refine List.sorted_cons.mpr ⟨?_, ih hys⟩
      intro b hb
      have hb2 : b ∈ x :: ys := (h_insertDesc_perm x ys).mem_iff.mp hb
      rcases List.mem_cons.mp hb2 with rfl | hb2
      · exact le_of_lt (not_le.mp hxy)
      · exact hy b hb2

/-- The stable sort produces a list sorted by descending average. -/
theorem h_sortDesc_sorted (l : List IdxAvg) :
    List.Sorted descRel (StudentClusterer.sortDesc l) := by
  induction l with
  | nil => simp [StudentClusterer.sortDesc]
  | cons a l ih => exact h_insertDesc_sorted a (StudentClusterer.sortDesc l) ih

/-- Every entry of the centroid-averages array records a valid centroid
index together with that centroid's coordinate mean. -/
theorem h_centroidAvgs_mem (centroids : List (List ℚ)) (it : IdxAvg)
    (hm : it ∈ StudentClusterer.centroidAvgs centroids) :
    it.idx < centroids.length
    ∧ it.average =
        (centroids.getD it.idx []).sum / ((centroids.getD it.idx []).length : ℚ) := by
  rcases List.mem_iff_getElem?.mp hm with ⟨j, hj⟩
  rw [StudentClusterer.centroidAvgs, h_jsMapIdx_getElem] at hj
  rcases Option.map_eq_some'.mp hj with ⟨c, hc, hfc⟩
  have hlt : j < centroids.length := by
    by_contra hge
    rw [List.getElem?_eq_none (by omega)] at hc
    cases hc
  have hidx : it.idx = j := by rw [← hfc]
  have havg : it.average = c.sum / (c.length : ℚ) := by rw [← hfc]
  have hgd : centroids.getD j [] = c := by
    rw [List.getD_eq_getElem?_getD, hc]
    rfl
  rw [hidx, hgd]
  exact ⟨hlt, havg⟩

/-- A successful persona-assignment pass keeps the sorted cluster ids in
order and hands out persona names by rank from the fixed table. -/
theorem h_assignPersonas_maps (students : List Student) (centroids : List (List ℚ))
    (labels : List ℕ) :
    ∀ (l : List IdxAvg) (i : ℕ) (cs : List ClusterResult),
      StudentClusterer.assignPersonas students centroids labels i l = some cs →
      cs.map (fun c => c.cluster_id) = l.map (fun it => it.idx)
      ∧ cs.map (fun c => c.persona) =
          ((StudentClusterer.personas.map Prod.fst).drop i).take l.length := by
  intro l
  induction l with
  | nil =>
    intro i cs h
    have : cs = [] := by
      simpa [StudentClusterer.assignPersonas] using h.symm
    subst this
    simp
  | cons item rest ih =>
    intro i cs h
    rw [StudentClusterer.assignPersonas] at h
    cases hm : StudentClusterer.mkClusterResult students centroids labels i item with
    | none => rw [hm] at h; cases h
    | some c =>
      rw [hm] at h
      cases hr : StudentClusterer.assignPersonas students centroids labels (i + 1) rest with
      | none => rw [hr] at h; cases h
      | some cs' =>
        rw [hr] at h
        have hcs : cs = c :: cs' := by
          cases h
          rfl
        subst hcs
        obtain ⟨hid, hper⟩ := ih (i + 1) cs' hr
        rw [StudentClusterer.mkClusterResult] at hm
        cases hp : StudentClusterer.personas.get? i with
        | none => rw [hp] at hm; cases hm
        | some p =>
          rw [hp] at hm
          have hcp : c.persona = p.1 ∧ c.cluster_id = item.idx := by
            cases hm
            exact ⟨rfl, rfl⟩
          have hnames : (StudentClusterer.personas.map Prod.fst).get? i = some p.1 := by
            rw [List.get?_map, hp]
            rfl
          have hi_lt : i < (StudentClusterer.personas.map Prod.fst).length :=
            List.get?_eq_some.mp hnames |>.1
          have hdrop : (StudentClusterer.personas.map Prod.fst).drop i =
              p.1 :: (StudentClusterer.personas.map Prod.fst).drop (i + 1) := by
            rw [List.drop_eq_getElem_cons hi_lt]
            congr 1
            have := List.get?_eq_some.mp hnames
            rcases this with ⟨hlt, hval⟩
            rw [List.get_eq_getElem] at hval
            exact hval
          constructor
          · simp [hid, hcp.2]
          · simp only [List.map_cons, hper, hcp.1, hdrop, List.length_cons,
              List.take_succ_cons]

/-- C8: whenever persona assignment succeeds on a nonempty centroid list, the
summary list starts with the cluster labeled "High Achievers", whose centroid
coordinate mean is maximal among all summarised clusters; in general the
summaries are ordered by descending centroid mean and carry the fixed persona
names in rank order, independent of the numeric cluster ids k-means chose. -/
theorem claim8_persona_order :
    ∀ (students : List Student) (centroids : List (List ℚ)) (labels : List ℕ)
      (cs : List ClusterResult),
      centroids ≠ [] →
      StudentClusterer.buildClusters students centroids labels = Except.ok cs →
      (∃ top rest, cs = top :: rest
        ∧ top.persona = "High Achievers"
        ∧ ∀ c ∈ cs,
            (centroids.getD c.cluster_id []).sum / ((centroids.getD c.cluster_id []).length : ℚ)
              ≤ (centroids.getD top.cluster_id []).sum /
                  ((centroids.getD top.cluster_id []).length : ℚ))
      ∧ cs.map (fun c => c.persona) =
          (StudentClusterer.personas.map Prod.fst).take cs.length
      ∧ List.Sorted (fun a b : ℚ => b ≤ a)
          (cs.map fun c =>
            (centroids.getD c.cluster_id []).sum /
              ((centroids.getD c.cluster_id []).length : ℚ)) := by
  intro students centroids labels cs hne hok
  rw [StudentClusterer.buildClusters] at hok
  cases happ : StudentClusterer.assignPersonas students centroids labels 0
      (StudentClusterer.sortDesc (StudentClusterer.centroidAvgs centroids)) with
  | none => rw [happ] at hok; cases hok
  | some cs' =>
    rw [happ] at hok
    have hcs' : cs' = cs := by cases hok; rfl
    subst hcs'
    obtain ⟨hid, hper⟩ := h_assignPersonas_maps students centroids labels
      (StudentClusterer.sortDesc (StudentClusterer.centroidAvgs centroids)) 0 cs' happ
    have hlen : cs'.length =
        (StudentClusterer.sortDesc (StudentClusterer.centroidAvgs centroids)).length := by
      have hl := congrArg List.length hid
      simpa using hl
    have hslen : (StudentClusterer.sortDesc (StudentClusterer.centroidAvgs centroids)).length =
        centroids.length := by
      rw [(h_sortDesc_perm _).length_eq]
      exact h_jsMapIdx_length _ _
    have hmapg : cs'.map (fun c =>
          (centroids.getD c.cluster_id []).sum / ((centroids.getD c.cluster_id []).length : ℚ)) =
        (StudentClusterer.sortDesc (StudentClusterer.centroidAvgs centroids)).map
          (fun it => it.average) := by
      have h1 : cs'.map (fun c =>
            (centroids.getD c.cluster_id []).sum /
              ((centroids.getD c.cluster_id []).length : ℚ)) =
          (cs'.map (fun c => c.cluster_id)).map
            (fun j => (centroids.getD j []).sum / ((centroids.getD j []).length : ℚ)) := by
        rw [List.map_map]
        rfl
      rw [h1, hid, List.map_map]
      apply List.map_congr_left
      intro it hit
      have hmem : it ∈ StudentClusterer.centroidAvgs centroids :=
        (h_sortDesc_perm _).mem_iff.mp hit
      exact ((h_centroidAvgs_mem centroids it hmem).2).symm
    have hsort : List.Sorted (fun a b : ℚ => b ≤ a)
        (cs'.map fun c =>
          (centroids.getD c.cluster_id []).sum /
            ((centroids.getD c.cluster_id []).length : ℚ)) := by
      rw [hmapg]
      exact List.Pairwise.map _ (fun a b hab => hab) (h_sortDesc_sorted _)
    have hprefix : cs'.map (fun c => c.persona) =
        (StudentClusterer.personas.map Prod.fst).take cs'.length := by
      rw [hper, List.drop_zero, hlen]
    have hcsne : cs' ≠ [] := by
      intro hnil
      rw [hnil] at hlen
      simp only [List.length_nil] at hlen
      exact hne (List.length_eq_zero.mp (by omega))
    obtain ⟨top, rest, hcons⟩ := List.exists_cons_of_ne_nil hcsne
    subst hcons
    refine ⟨⟨top, rest, rfl, ?_, ?_⟩, hprefix, hsort⟩
    · have hh := congrArg List.head? hprefix
      simp only [List.map_cons, List.head?_cons] at hh
      rw [List.length_cons] at hh
      simpa [StudentClusterer.personas, List.take_succ_cons] using hh
    · intro c hc
      rcases List.mem_cons.mp hc with rfl | hc
      · exact le_refl _
      · have hrel := List.rel_of_sorted_cons hsort
        exact hrel _ (List.mem_map_of_mem _ hc)

/-- Witness for C8 on concrete centroids [[1,1,1,1]] and [[3,3,3,3]] with a
single student assigned to cluster 1: cluster 1 (the higher mean) heads the
list as "High Achievers". -/
theorem claim8_persona_order_witness :
    centsW8 ≠ []
    ∧ (∃ top rest, clustersW8 = top :: rest
        ∧ top.persona = "High Achievers"
        ∧ ∀ c ∈ clustersW8,
            (centsW8.getD c.cluster_id []).sum / ((centsW8.getD c.cluster_id []).length : ℚ)
              ≤ (centsW8.getD top.cluster_id []).sum /
                  ((centsW8.getD top.cluster_id []).length : ℚ)) :=
  ⟨by decide,
    (claim8_persona_order [oneStudent] centsW8 [1] clustersW8 (by decide) (by rfl)).1⟩
